import Mathlib

/-!
# Verification of the weather_modelling harmonization pipeline

A shallow embedding of the claim-relevant parts of the repository:

* `src/gdas_utility_fixed.py` — `GFSDataProcessor.process_data_with_wgrib2`,
  `process_forecast_pairs_with_wgrib2`, `process_data_with_pygrib`,
  `get_dataarray`;
* `src/06_nc_zarr.py` — `merge_nc_to_zarr`;
* `src/04_zarr.py` — `find_forecast_files`, `process_two_forecasts`.

Data values are modelled as rationals (the Python code uses floats, but the
claims under scrutiny concern which exact unit-conversion constants are
applied, not rounding); times are modelled as integers counting hours
(`timedelta(hours=6)` becomes `+ 6`).
-/

namespace WeatherModelling

/-- Standard gravity used by the unit conversions in both extraction paths
(`* 9.80665` in `process_data_with_wgrib2` lines 329-330 and in
`get_dataarray` lines 566 and 589). -/
def gravity : ℚ := 9.80665

/-! ## wgrib2 extraction path (`process_data_with_wgrib2`)

Only the fields the claims talk about are carried: the two geopotential
fields, the precipitation field, and the time axis.  All other variables are
renamed but otherwise untouched by the harmonization tail of the function. -/

/-- The merged dataset of the wgrib2 path just after `xr.combine_by_coords`
and renaming, i.e. still holding the decoded raw values and the absolute
valid times (hours). -/
structure Wgrib2Dataset where
  geopotential_at_surface : ℚ
  geopotential : ℚ
  total_precipitation_6hr : ℚ
  time : List ℤ
  deriving DecidableEq, Repr

/-- The harmonization tail of `process_data_with_wgrib2` (lines 317-333):
`ds['time'] = ds['time'] - ds.time[0]`, then
`ds['geopotential_at_surface'] *= 9.80665`, `ds['geopotential'] *= 9.80665`,
`ds['total_precipitation_6hr'] /= 1000`.  (The `expand_dims`/`squeeze`
steps do not change any value and are not represented.) -/
def wgrib2Harmonize (ds : Wgrib2Dataset) : Wgrib2Dataset :=
  { geopotential_at_surface := ds.geopotential_at_surface * gravity
    geopotential := ds.geopotential * gravity
    total_precipitation_6hr := ds.total_precipitation_6hr / 1000
    time :=
      match ds.time with
      | [] => []
      | t0 :: _ => ds.time.map (fun t => t - t0) }

/-! ## pygrib extraction path (`process_data_with_pygrib`, `get_dataarray`) -/

/-- The canonical-name map of `get_dataarray` (lines 563-599).  The final
`else v` branch is unreachable for the variables the driver requests (the
source would leave `var_name_new` unbound there). -/
def pygrib_canonical_name (v : String) : String :=
  if v = "gh" then "geopotential_at_surface"
  else if v = "t2m" then "2m_temperature"
  else if v = "msl" then "mean_sea_level_pressure"
  else if v = "u10" then "10m_u_component_of_wind"
  else if v = "v10" then "10m_v_component_of_wind"
  else if v = "tp" then "total_precipitation_6hr"
  else if v = "lsm" then "land_sea_mask"
  else if v = "z" then "geopotential"
  else if v = "t" then "temperature"
  else if v = "q" then "specific_humidity"
  else if v = "w" then "vertical_velocity"
  else if v = "u" then "u_component_of_wind"
  else if v = "v" then "v_component_of_wind"
  else v

/-- The in-place unit conversion of `get_dataarray`: `gh` (surface branch,
line 566) and `z` (pressure-level branch, line 589) are multiplied by
9.80665; every other variable keeps its decoded raw value. -/
def get_dataarray_value (var_name : String) (raw : ℚ) : ℚ :=
  if var_name = "gh" then raw * gravity
  else if var_name = "z" then raw * gravity
  else raw

/-- The time coordinate `get_dataarray` attaches to a slice (lines
543-545): the message's valid date, plus `timedelta(hours=6)` when the
variable is `tp`. -/
def get_dataarray_time (var_name : String) (validDate : ℤ) : ℤ :=
  if var_name = "tp" then validDate + 6 else validDate

/-- The merged pygrib dataset after `xr.merge` (fields the claims need). -/
structure PygribDataset where
  total_precipitation_6hr : ℚ
  time : List ℤ
  deriving DecidableEq, Repr

/-- The harmonization tail of `process_data_with_pygrib` (lines 498-513):
the only transformation between `xr.merge` and `to_netcdf` is
`ds['total_precipitation_6hr'] = ds['total_precipitation_6hr'] / 1000`
(line 501); in particular the time coordinate is not touched. -/
def pygribHarmonize (ds : PygribDataset) : PygribDataset :=
  { ds with total_precipitation_6hr := ds.total_precipitation_6hr / 1000 }

/-- The value that ends up in the written pygrib dataset for a variable
extracted with raw value `raw`: the `get_dataarray` conversion followed by
the pipeline's division of the `total_precipitation_6hr` field. -/
def pygrib_placed_value (var_name : String) (raw : ℚ) : ℚ :=
  if pygrib_canonical_name var_name = "total_precipitation_6hr" then
    get_dataarray_value var_name raw / 1000
  else
    get_dataarray_value var_name raw

/-! ## Step-type selection in `get_dataarray` (lines 533-561)

`grbs.select` returns a list of messages; an empty result returns `None`
(lines 535-537).  The code then binds the head of that list and reads its
data (lines 539-541).  The step-type filter keeping only `'instant'`
messages is guarded by a length check `> 2` (line 547); we model that
branch at the level of the list returned by `select` (the only reading
under which the loop over messages at lines 551-556 is meaningful —
literally the source re-binds `variable_message` to the head first).
Under either reading, when the length check fails the function returns the
head message's data unfiltered (line 561). -/

structure GribMessage where
  stepType : String
  value : ℤ
  deriving DecidableEq, Repr

/-- Message-selection logic of `get_dataarray`: empty select → none;
more than two matched messages → keep the `'instant'` ones; otherwise the
first matched message, whatever its step type. -/
def selectStepData (msgs : List GribMessage) : Option (List ℤ) :=
  match msgs with
  | [] => none
  | m0 :: _ =>
    if msgs.length > 2 then
      some ((msgs.filter (fun m => m.stepType = "instant")).map (fun m => m.value))
    else
      some [m0.value]

/-! ## Forecast-pair scheduler (`process_forecast_pairs_with_wgrib2`) -/

/-- Zero-padding of `f"f{h:03d}"`. -/
def pad3 (h : Nat) : String :=
  if h < 10 then "00" ++ toString h
  else if h < 100 then "0" ++ toString h
  else toString h

/-- `forecast_hours = [f"f{h:03d}" for h in range(0, 12)]` (line 368). -/
def forecast_hours : List String :=
  (List.range 12).map (fun h => "f" ++ pad3 h)

/-- `pair_hours = [forecast_hours[i], forecast_hours[i+6]] for i in range(6)`
(lines 370-371); each pair is passed to its own
`process_data_with_wgrib2(forecast_hours=pair_hours)` job. -/
def forecastPairs : List (List String) :=
  (List.range 6).map (fun i => [forecast_hours.getD i "", forecast_hours.getD (i + 6) ""])

/-! ## Cycle pairing (`merge_nc_to_zarr`, `process_two_forecasts`) -/

/-- Time-axis behaviour of `merge_nc_to_zarr` (src/06_nc_zarr.py lines
19-33): read `ds2.time[0]`, shift all of `ds1`'s times by
`(ds2.time[0] - 6h) - ds1.time[0]`, concatenate `[ds1, ds2]` along time and
sort.  The source indexes `time.values[0]` unconditionally, so an empty
time axis is modelled as `none` (an `IndexError` in Python). -/
def mergeNcTimes (ds1Times ds2Times : List ℤ) : Option (List ℤ) :=
  match ds1Times, ds2Times with
  | t1 :: _, t2 :: _ =>
    let shifted_time_ds1 := t2 - 6
    let offset := shifted_time_ds1 - t1
    some ((((t1 :: ds1Times.tail).map (fun t => t + offset)) ++ (t2 :: ds2Times.tail)).insertionSort (fun a b => a ≤ b))
  | _, _ => none

/-- Time axis produced by `process_two_forecasts` (src/04_zarr.py lines
194-199): `ds1.expand_dims(time=[0])`, `ds2.expand_dims(time=[1])`,
`xr.concat([ds1, ds2], dim="time")`; no sort and no monotonicity check
follow before `to_zarr`. -/
def processTwoForecastsTimes : List ℤ := [0] ++ [1]

/-! ## wgrib2 driver file resolution (`process_data_with_wgrib2` lines
228-255 and `process_data_with_pygrib` lines 468-478)

In the wgrib2 loop, when `glob` returns exactly one file the local
`grib2_file` is re-bound to it; otherwise the code only prints
"Error: Found multiple or no matching files." and falls through — there is
no `continue`, so extraction proceeds with the previously bound
`grib2_file` (`none` models the unbound name on the first iteration, a
`NameError` in Python).  The pygrib loop instead executes `continue`,
skipping that file's variables. -/

/-- One resolution step of the wgrib2 loop. -/
def wgrib2ResolveStep (matching_files : List String) (grib2_file : Option String) : Option String :=
  if matching_files.length = 1 then some (matching_files.headD "") else grib2_file

/-- The file each successive spec's extraction runs against, threading the
`grib2_file` binding through the loop. -/
def wgrib2DriverFiles : List (List String) → Option String → List (Option String)
  | [], _ => []
  | m :: rest, prev =>
    let cur := wgrib2ResolveStep m prev
    cur :: wgrib2DriverFiles rest cur

/-- One resolution step of the pygrib loop: zero or several matches skip
the file (`continue`, line 478). -/
def pygribResolveStep (matching_files : List String) : Option String :=
  if matching_files.length = 1 then some (matching_files.headD "") else none

/-! ## first_time_step_only consumption (`process_data_with_wgrib2` lines
263-271)

For the flag-bearing variables (`:LAND:`, `:HGT:`): when the stored flag is
set, the dataset is truncated to its first time step, appended, and the
flag in the `variables_to_extract` dictionary itself is overwritten with
`False`; when the flag is clear, nothing at all is appended.  The
dictionary is rebuilt by each call of `process_data_with_wgrib2`, so the
mutation is local to one job. -/

/-- Per-job driver state for one flag-bearing spec entry: the flag as
stored in the `variables_to_extract` table, and the `extracted_datasets`
accumulator (each dataset modelled as its list of time-step values). -/
structure FlagJobState where
  first_time_step_only : Bool
  extracted : List (List ℤ)
  deriving DecidableEq, Repr

/-- One visit of a flag-bearing spec (the `else` branch of lines 264-271):
truncate to the first time step (`isel(time=0)`), append, and overwrite the
table's flag with `False`; on a later visit (flag already `False`) append
nothing. -/
def visitFlagVar (st : FlagJobState) (ds : List ℤ) : FlagJobState :=
  if st.first_time_step_only then
    { first_time_step_only := false, extracted := st.extracted ++ [ds.take 1] }
  else
    st

/-- All visits of one flag-bearing spec within one job, in order. -/
def runFlagVisits (st : FlagJobState) : List (List ℤ) → FlagJobState
  | [] => st
  | ds :: rest => runFlagVisits (visitFlagVar st ds) rest

/-- A fresh job: `variables_to_extract` is rebuilt inside each call of
`process_data_with_wgrib2` (lines 166-205), so every job starts with the
flag set, independent of any previous job's mutations. -/
def runFlagJob (dss : List (List ℤ)) : FlagJobState :=
  runFlagVisits { first_time_step_only := true, extracted := [] } dss

/-! ## File resolver (`find_forecast_files`, src/04_zarr.py lines 103-119)

The filesystem is modelled as a decidable existence predicate on paths. -/

/-- `find_forecast_files`: probe `DATA_DIR/{key}_pgrba.grib2` and
`DATA_DIR/{key}_pgrbb.grib2`, adding the `"pgrb2"` / `"pgrb2b"` entries for
those that exist.  Returns a (possibly empty) association list; it is a
total function — no exception path exists in the source. -/
def find_forecast_files (fs : String → Bool) (key : String) : List (String × String) :=
  (if fs (key ++ "_pgrba.grib2") then [("pgrb2", key ++ "_pgrba.grib2")] else []) ++
  (if fs (key ++ "_pgrbb.grib2") then [("pgrb2b", key ++ "_pgrbb.grib2")] else [])

/-! ## Helper lemmas -/

/-- Merging two single-entry time axes: the earlier dataset's (sole) time is
overwritten with `t2 - 6` whatever it was, so the result depends only on the
later dataset's first timestamp. -/
theorem mergeNcTimes_pair (t0' t1 : ℤ) : mergeNcTimes [t0'] [t1] = some [t1 - 6, t1] := by
  simp only [mergeNcTimes, List.tail, List.map, List.insertionSort, List.orderedInsert,
    List.cons_append, List.nil_append, Option.some.injEq]
  split_ifs with h
  · simp only [List.cons.injEq, and_true]
    omega
  · exfalso; omega

/-- The file used by each wgrib2 extraction step is either threaded in from
before the loop or was the unique glob match of some earlier step. -/
theorem wgrib2DriverFiles_mem (ms : List (List String)) (prev : Option String) (f : String) :
    some f ∈ wgrib2DriverFiles ms prev → some f = prev ∨ ∃ m ∈ ms, m = [f] := by
  induction ms generalizing prev with
  | nil => intro h; simp [wgrib2DriverFiles] at h
  | cons m rest ih =>
    intro h
    simp only [wgrib2DriverFiles, List.mem_cons] at h
    have step : some f = wgrib2ResolveStep m prev → some f = prev ∨ ∃ m' ∈ m :: rest, m' = [f] := by
      intro hcur
      by_cases hm : m.length = 1
      · right
        rcases List.length_eq_one.mp hm with ⟨a, ha⟩
        refine ⟨m, List.mem_cons_self m rest, ?_⟩
        rw [wgrib2ResolveStep, if_pos hm, ha] at hcur
        simp only [List.headD, Option.some.injEq] at hcur
        rw [ha, hcur]
      · left
        rwa [wgrib2ResolveStep, if_neg hm] at hcur
    rcases h with hcur | hrest
    · exact step hcur
    · rcases ih (wgrib2ResolveStep m prev) hrest with hprev | ⟨m', hm', hf⟩
      · exact step hprev
      · exact Or.inr ⟨m', List.mem_cons_of_mem m hm', hf⟩

/-- Once the stored flag is `False`, every further visit of the flag-bearing
spec leaves the job state untouched (nothing is appended). -/
theorem runFlagVisits_consumed (st : FlagJobState) (h : st.first_time_step_only = false) :
    ∀ dss, runFlagVisits st dss = st := by
  intro dss
  induction dss with
  | nil => rfl
  | cons ds rest ih =>
    have hv : visitFlagVar st ds = st := by
      rw [visitFlagVar, h]
      simp
    rw [runFlagVisits, hv]
    exact ih

/-! ## Claim theorems -/

/-- Claim C1: in both extraction paths, every value placed in the harmonized
dataset under the canonical names `geopotential` and
`geopotential_at_surface` is the decoded raw value multiplied by exactly
9.80665, and the value placed under `total_precipitation_6hr` is the raw
value divided by exactly 1000 (wgrib2 path: lines 329-333; pygrib path:
`get_dataarray` conversions for `gh`/`z` plus the pipeline's division at
line 501). -/
theorem C1_unit_conversions :
    (∀ ds : Wgrib2Dataset,
      (wgrib2Harmonize ds).geopotential_at_surface = ds.geopotential_at_surface * 9.80665 ∧
      (wgrib2Harmonize ds).geopotential = ds.geopotential * 9.80665 ∧
      (wgrib2Harmonize ds).total_precipitation_6hr = ds.total_precipitation_6hr / 1000) ∧
    (∀ raw : ℚ,
      pygrib_placed_value "gh" raw = raw * 9.80665 ∧
      pygrib_placed_value "z" raw = raw * 9.80665 ∧
      pygrib_placed_value "tp" raw = raw / 1000) ∧
    pygrib_canonical_name "gh" = "geopotential_at_surface" ∧
    pygrib_canonical_name "z" = "geopotential" ∧
    pygrib_canonical_name "tp" = "total_precipitation_6hr" := by
  refine ⟨fun ds => ⟨rfl, rfl, rfl⟩, fun raw => ⟨?_, ?_, ?_⟩, by decide, by decide, by decide⟩
  · simp [pygrib_placed_value, pygrib_canonical_name, get_dataarray_value, gravity]
  · simp [pygrib_placed_value, pygrib_canonical_name, get_dataarray_value, gravity]
  · simp [pygrib_placed_value, pygrib_canonical_name, get_dataarray_value, gravity]

/-- Claim C2: `process_forecast_pairs_with_wgrib2` partitions the lead-time
sequence f000..f011 into exactly six 2-element windows, the i-th window
being (f-i, f-(i+6)); each window is handed to its own
`process_data_with_wgrib2` job. -/
theorem C2_forecast_pair_windows :
    forecastPairs =
      [["f000", "f006"], ["f001", "f007"], ["f002", "f008"],
       ["f003", "f009"], ["f004", "f010"], ["f005", "f011"]] ∧
    forecastPairs.length = 6 ∧
    forecastPairs.all (fun w => w.length = 2) = true ∧
    forecastPairs.flatten.Perm forecast_hours := by
  refine ⟨by decide, by decide, by decide, by decide⟩

/-- Claim C3: in `merge_nc_to_zarr`, the shift applied to the earlier
dataset is computed from the later dataset's first timestamp (the earlier
dataset's sole time becomes `t1 - 6` whatever it was), and when the two
first timestamps are `t0` and `t1 = t0 + 6` the merged series is exactly
`[t0, t1]` in order. -/
theorem C3_cycle_pairing_shift (t0 t1 : ℤ) (h : t1 = t0 + 6) :
    mergeNcTimes [t0] [t1] = some [t0, t1] ∧
    (∀ t0' : ℤ, mergeNcTimes [t0'] [t1] = some [t1 - 6, t1]) := by
  refine ⟨?_, fun t0' => mergeNcTimes_pair t0' t1⟩
  rw [mergeNcTimes_pair t0 t1, h]
  norm_num

/-- Witness for C3 at `t0 = 0`, `t1 = 6`. -/
theorem C3_cycle_pairing_shift_witness :
    mergeNcTimes [(0 : ℤ)] [6] = some [0, 6] :=
  (C3_cycle_pairing_shift 0 6 (by norm_num)).1

/-- Claim C4 counterexample: the pygrib pipeline
(`process_data_with_pygrib`) contains no time-normalization step, so a
merged dataset whose first valid time is hour 12 is written with
`time[0] = 12 ≠ 0`, contradicting the claim that in both extraction paths
the time coordinate is re-expressed so that `time[0] = 0`. -/
theorem C4_pygrib_time_not_normalized :
    (pygribHarmonize { total_precipitation_6hr := 5, time := [12, 18] }).time = [12, 18] ∧
    (pygribHarmonize { total_precipitation_6hr := 5, time := [12, 18] }).time.headD 0 ≠ 0 := by
  refine ⟨rfl, by decide⟩

/-- Claim C4 amended: only the wgrib2 path re-expresses time as an elapsed
offset from the dataset's first valid time (so `time[0] = 0` there); the
pygrib path writes the absolute valid times unchanged. -/
theorem C4_time_normalization_amended :
    (∀ (g z p : ℚ) (t0 : ℤ) (ts : List ℤ),
      (wgrib2Harmonize ⟨g, z, p, t0 :: ts⟩).time = (t0 :: ts).map (fun t => t - t0) ∧
      (wgrib2Harmonize ⟨g, z, p, t0 :: ts⟩).time.headD 0 = 0) ∧
    (∀ ds : PygribDataset, (pygribHarmonize ds).time = ds.time) := by
  refine ⟨fun g z p t0 ts => ⟨rfl, ?_⟩, fun ds => rfl⟩
  simp [wgrib2Harmonize]

/-- Claim C5 counterexample: in the wgrib2 driver, a spec whose glob yields
zero matching files is still extracted — from the stale file bound by the
previous spec (there is no `continue` and no raised error after the
diagnostic print), contradicting "raises a typed error ... never extracts
from an arbitrary or stale file match". -/
theorem C5_stale_file_extraction :
    wgrib2DriverFiles [["a.grib2"], []] none = [some "a.grib2", some "a.grib2"] ∧
    ([] : List String).length ≠ 1 := by
  refine ⟨by decide, by decide⟩

/-- Claim C5 amended: when glob resolution yields zero or more than one
match, the wgrib2 driver keeps the previously bound file and extracts from
it (stale reuse; an unbound name on the first iteration), so every file it
ever extracts from is the unique glob match of some step; the pygrib driver
skips the file (`continue`) with only a printed diagnostic.  No typed
`SourceNotFound`/`AmbiguousSource` error exists and mandatory variables
never fail the job. -/
theorem C5_resolution_amended :
    (∀ (m : List String) (prev : Option String),
      m.length ≠ 1 → wgrib2ResolveStep m prev = prev) ∧
    (∀ (ms : List (List String)) (f : String),
      some f ∈ wgrib2DriverFiles ms none → ∃ m ∈ ms, m = [f]) ∧
    (∀ m : List String, m.length ≠ 1 → pygribResolveStep m = none) := by
  refine ⟨fun m prev h => by rw [wgrib2ResolveStep, if_neg h],
    fun ms f h => ?_,
    fun m h => by rw [pygribResolveStep, if_neg h]⟩
  rcases wgrib2DriverFiles_mem ms none f h with habs | hgood
  · exact absurd habs (Option.some_ne_none f)
  · exact hgood

/-- Witness for C5 at a concrete step with zero glob matches. -/
theorem C5_resolution_amended_witness :
    wgrib2ResolveStep [] (some "x.grib2") = some "x.grib2" :=
  C5_resolution_amended.1 [] (some "x.grib2") (by decide)

/-- Claim C6 counterexample: consuming the `first_time_step_only` flag is
implemented by overwriting the flag stored in the `variables_to_extract`
table itself (`... ['first_time_step_only'] = False`, line 271), so the
extraction-spec table is mutated in place, contradicting "without mutating
the shared extraction-spec table". -/
theorem C6_spec_table_mutation :
    (visitFlagVar { first_time_step_only := true, extracted := [] } [5, 7]).first_time_step_only
      = false := by
  decide

/-- Claim C6 amended: within one job the truncation is applied exactly once
— the first visit of a flag-bearing spec appends the first-time-step slice
and flips the flag stored in the spec table to `False`, after which every
later visit appends nothing at all; the table is rebuilt inside each call
of `process_data_with_wgrib2`, so the mutation never leaks across jobs. -/
theorem C6_flag_consumed_once_amended :
    (∀ (d0 : List ℤ) (dss : List (List ℤ)),
      runFlagJob (d0 :: dss) =
        { first_time_step_only := false, extracted := [d0.take 1] }) ∧
    (∀ st : FlagJobState, st.first_time_step_only = false →
      ∀ dss, runFlagVisits st dss = st) := by
  refine ⟨fun d0 dss => ?_, fun st h dss => runFlagVisits_consumed st h dss⟩
  have h1 : visitFlagVar { first_time_step_only := true, extracted := [] } d0 =
      { first_time_step_only := false, extracted := [d0.take 1] } := by
    rw [visitFlagVar]
    simp
  rw [runFlagJob, runFlagVisits, h1]
  exact runFlagVisits_consumed _ rfl dss

/-- Witness for C6: a consumed state is left untouched by further visits. -/
theorem C6_flag_consumed_once_amended_witness :
    runFlagVisits { first_time_step_only := false, extracted := [[3]] } [[1, 2]] =
      { first_time_step_only := false, extracted := [[3]] } :=
  C6_flag_consumed_once_amended.2 { first_time_step_only := false, extracted := [[3]] }
    rfl [[1, 2]]

/-- Claim C7 counterexample: with exactly two step-type encodings present
(one averaged, one instantaneous), `get_dataarray` does not take the
instantaneous message — the `> 2` length guard fails and the first message
in file order (here the averaged one, value 5) is used, while selecting the
instantaneous encoding would give value 7. -/
theorem C7_avg_message_selected :
    selectStepData
      [{ stepType := "avg", value := 5 }, { stepType := "instant", value := 7 }] = some [5] ∧
    ([({ stepType := "avg", value := 5 } : GribMessage),
      { stepType := "instant", value := 7 }].filter
        (fun m => m.stepType = "instant")).map (fun m => m.value) = [7] := by
  refine ⟨by decide, by decide⟩

/-- Claim C7 amended: the instantaneous-encoding filter is applied only
when the message select returns more than two messages; with at most two
messages (in particular when exactly the two encodings are present) the
first message in file order is used regardless of its step type, and an
empty select yields no slice. -/
theorem C7_step_type_selection_amended :
    (∀ m1 m2 : GribMessage, selectStepData [m1, m2] = some [m1.value]) ∧
    (∀ msgs : List GribMessage, 2 < msgs.length →
      selectStepData msgs =
        some ((msgs.filter (fun m => m.stepType = "instant")).map (fun m => m.value))) ∧
    selectStepData [] = none := by
  refine ⟨fun m1 m2 => rfl, fun msgs h => ?_, rfl⟩
  match msgs with
  | [] => simp at h
  | m0 :: rest =>
    rw [selectStepData, if_pos h]

/-- Witness for C7 at a three-message select result. -/
theorem C7_step_type_selection_amended_witness :
    selectStepData
      [{ stepType := "avg", value := 1 }, { stepType := "instant", value := 2 },
       { stepType := "instant", value := 3 }] = some [2, 3] :=
  C7_step_type_selection_amended.2.1
    [{ stepType := "avg", value := 1 }, { stepType := "instant", value := 2 },
     { stepType := "instant", value := 3 }] (by decide)

/-- Claim C8 counterexample: `merge_nc_to_zarr` sorts and then writes
unconditionally — merging a two-step dataset `[0, 12]` with `[6, 12]`
produces the written axis `[0, 6, 12, 12]`, which is not strictly
monotonic after the sort (duplicate 12), yet no `TimeOrderingError` (or
any failure) occurs; no such error exists anywhere in the code. -/
theorem C8_duplicate_times_written :
    mergeNcTimes [0, 12] [6, 12] = some [0, 6, 12, 12] ∧
    ¬ List.Pairwise (fun a b => a < b) ([0, 6, 12, 12] : List ℤ) := by
  refine ⟨by decide, by decide⟩

/-- Claim C8 amended: the `merge_nc_to_zarr` path sorts the final time axis
(every written axis is non-decreasing) but never checks monotonicity nor
raises; the `process_two_forecasts` path applies no sort at all — its axis
is the synthetic `[0, 1]`, sorted by construction. -/
theorem C8_sorting_amended :
    (∀ a b out : List ℤ, mergeNcTimes a b = some out → out.Sorted (fun x y => x ≤ y)) ∧
    processTwoForecastsTimes = [0, 1] := by
  refine ⟨fun a b out h => ?_, rfl⟩
  match a, b with
  | [], _ => simp [mergeNcTimes] at h
  | _ :: _, [] => simp [mergeNcTimes] at h
  | t1 :: r1, t2 :: r2 =>
    simp only [mergeNcTimes, Option.some.injEq] at h
    subst h
    exact List.sorted_insertionSort _ _

/-- Witness for C8: a concretely merged axis is sorted. -/
theorem C8_sorting_amended_witness :
    List.Sorted (fun x y => x ≤ y) ([0, 6] : List ℤ) :=
  C8_sorting_amended.1 [0] [6] [0, 6] (by decide)

/-- Claim C9: `find_forecast_files` returns exactly the file families whose
archive files exist — the `"pgrb2"` entry is present iff
`{key}_pgrba.grib2` exists and the `"pgrb2b"` entry iff
`{key}_pgrbb.grib2` exists (so with only the primary present the result
holds the primary and omits the secondary) — and it returns the empty
mapping, rather than raising, when neither exists (the function is total:
no exception path exists in the source). -/
theorem C9_file_resolver_exact_families (fs : String → Bool) (key : String) :
    ("pgrb2" ∈ (find_forecast_files fs key).map Prod.fst ↔
      fs (key ++ "_pgrba.grib2") = true) ∧
    ("pgrb2b" ∈ (find_forecast_files fs key).map Prod.fst ↔
      fs (key ++ "_pgrbb.grib2") = true) ∧
    (fs (key ++ "_pgrba.grib2") = false → fs (key ++ "_pgrbb.grib2") = false →
      find_forecast_files fs key = []) := by
  cases hfa : fs (key ++ "_pgrba.grib2") <;> cases hfb : fs (key ++ "_pgrbb.grib2") <;>
    simp [find_forecast_files, hfa, hfb]

/-- Witness for C9: a filesystem holding only the primary file yields a
mapping containing the primary family. -/
theorem C9_file_resolver_exact_families_witness :
    "pgrb2" ∈ (find_forecast_files (fun p => p == "k_pgrba.grib2") "k").map Prod.fst :=
  ((C9_file_resolver_exact_families (fun p => p == "k_pgrba.grib2") "k").1).mpr (by decide)

/-- Claim C10: `get_dataarray` stamps every slice with the message's valid
date, except `tp` (canonical `total_precipitation_6hr`), whose time is the
valid date plus 6 hours — so precipitation carries a timestamp 6 hours
later than any other field extracted from the same message date. -/
theorem C10_tp_time_offset (validDate : ℤ) :
    get_dataarray_time "tp" validDate = validDate + 6 ∧
    (∀ v : String, v ≠ "tp" → get_dataarray_time v validDate = validDate) ∧
    (∀ v : String, v ≠ "tp" →
      get_dataarray_time "tp" validDate = get_dataarray_time v validDate + 6) := by
  refine ⟨rfl, fun v h => by rw [get_dataarray_time, if_neg h], fun v h => ?_⟩
  simp [get_dataarray_time, h]

/-- Witness for C10 at valid date 0 and the non-precipitation variable
`gh`. -/
theorem C10_tp_time_offset_witness :
    get_dataarray_time "gh" 0 = 0 :=
  (C10_tp_time_offset 0).2.1 "gh" (by decide)

end WeatherModelling
